import Mathlib

/-!
Verification of the slope-finder frontend core (search controller and
result pipeline).  The definitions below are a shallow embedding of the
TypeScript sources:

* the data model mirrors `src/frontend` type declarations
  (`WeatherPeriod`, `WeatherData`, `SnowReport`, `Resort`,
  `ResortsResponse`, `SortType`, `Filters`);
* the pure helpers `isGoodWeather`, `hasEnoughLiftsOpen`, `getPistesKm`
  and the `filteredAndSortedResorts` pipeline mirror the corresponding
  functions of the top-level `App` component;
* the stateful `loadResorts` procedure of `App` is embedded as an
  explicit state machine: `loadResortsIssue` is the synchronous prefix
  of the async function (up to and including the geocoding awaits and
  the issuing of the resort-page request), and `applyFetchSuccess` /
  `applyFetchFailure` are the continuations that run when the awaited
  fetch resolves or rejects.  JavaScript numbers are embedded as `Rat`.
-/

/-- Mirrors the `WeatherPeriod` interface of `types.ts`. -/
structure WeatherPeriod where
  time : String
  temperature_celsius : Rat
  precipitation_mm : Rat
  snowfall_cm : Rat
  cloud_cover_percent : Rat
  visibility_m : Rat
deriving DecidableEq

/-- Mirrors the `WeatherData` interface of `types.ts`. -/
structure WeatherData where
  snowfall_prev_24h_cm : Rat
  morning : WeatherPeriod
  midday : WeatherPeriod
  afternoon : WeatherPeriod
deriving DecidableEq

/-- Mirrors the `SnowReport` interface of `types.ts`. -/
structure SnowReport where
  pistes_km : String
  lifts : String
  snow_depth_cm : String
  updated_on : String
deriving DecidableEq

/-- Mirrors the `ResortLocation` interface of `types.ts`. -/
structure ResortLocation where
  lat : Rat
  lng : Rat
deriving DecidableEq

/-- Mirrors the `Resort` interface of `types.ts`.  The three travel
fields used as sort keys are embedded as `Option Rat`: the TypeScript
type declares them as `number`, but the sort comparator reads them with
`?? Infinity`, so `null`/`undefined` values are representable at runtime
and `none` stands for such a missing value. -/
structure Resort where
  id : String
  name : String
  location : ResortLocation
  elevation : String
  snowreport_url : String
  air_distance_km : Rat
  distance_km : Option Rat
  duration_driving_minutes : Option Rat
  duration_transit_minutes : Option Rat
  maps_directions_url_driving : Option String
  maps_directions_url_transit : Option String
  snow_report : Option SnowReport
  weather : WeatherData
  image_url : String
deriving DecidableEq

/-- Mirrors the `ResortsResponse` interface of `types.ts`. -/
structure ResortsResponse where
  page : Nat
  page_size : Nat
  total_resorts : Nat
  has_more : Bool
  resorts : List Resort
deriving DecidableEq

/-- Mirrors `SortType` of `FilterSortModal.tsx`:
`'proximity' | 'driving' | 'transit'`. -/
inductive SortType where
  | proximity
  | driving
  | transit
deriving DecidableEq

/-- Mirrors the `Filters` interface of `FilterSortModal.tsx`. -/
structure Filters where
  goodWeather : Bool
  freshSnow : Bool
  liftsOpen : Bool
  minPistes : Bool
deriving DecidableEq

/-! ### Regex helpers

The two snow-report parsers of `App.tsx` use the JavaScript regular
expressions `/(\d+)\s*\/\s*(\d+)/` and `/(\d+(?:\.\d+)?)/` through
`String.prototype.match`, which returns the leftmost match.  Both
patterns are implemented below as direct scanners.  Backtracking inside
a greedy `\d+` can never produce a match that the maximal digit run
misses (after shortening a digit run the next character is a digit,
which neither `\s*` nor `/` nor `.` accepts), so taking maximal runs
and otherwise advancing the start position one character at a time is
exactly the JavaScript match semantics for these two patterns. -/

/-- Value of an all-digit character group under `parseInt`. -/
def digitsToNat (ds : List Char) : Nat :=
  ds.foldl (fun n c => 10 * n + (c.toNat - 48)) 0

/-- The ASCII part of the JavaScript `\s` character class (the Unicode
space characters it also contains never occur in the snow-report
strings this code parses). -/
def jsSpaceChar (c : Char) : Bool :=
  c == ' ' || c == '\t' || c == '\n' || c == '\r' || c == '\x0b' || c == '\x0c'

/-- Attempt to match `/(\d+)\s*\/\s*(\d+)/` anchored at the start of
`cs`, returning the two captured groups as numbers. -/
def liftsTryHere (cs : List Char) : Option (Nat × Nat) :=
  let d1 := cs.takeWhile Char.isDigit
  if d1 = [] then none
  else
    match (cs.dropWhile Char.isDigit).dropWhile jsSpaceChar with
    | '/' :: rest =>
      let d2 := (rest.dropWhile jsSpaceChar).takeWhile Char.isDigit
      if d2 = [] then none else some (digitsToNat d1, digitsToNat d2)
    | _ => none

/-- Leftmost match of `/(\d+)\s*\/\s*(\d+)/` in `cs`, as performed by
`resort.snow_report.lifts.match(...)` in `hasEnoughLiftsOpen`. -/
def liftsMatch : List Char → Option (Nat × Nat)
  | [] => none
  | c :: rest =>
    match liftsTryHere (c :: rest) with
    | some v => some v
    | none => liftsMatch rest

/-- The comparison `parseInt(open) / parseInt(total) > 0.85` of
`hasEnoughLiftsOpen`, under JavaScript arithmetic: division by zero
yields `Infinity` (which exceeds `0.85`) when the numerator is
positive, and `NaN` (for which the comparison is false) when the
numerator is zero as well. -/
def liftsRatioAbove85 (opn tot : Nat) : Bool :=
  if tot = 0 then decide (0 < opn)
  else decide ((17 : Rat) / 20 < (opn : Rat) / (tot : Rat))

/-- Mirrors `hasEnoughLiftsOpen` of `App.tsx`:
guard `!resort.snow_report?.lifts` (a missing report or an empty lift
string is falsy), then the regex match and the ratio test. -/
def hasEnoughLiftsOpen (resort : Resort) : Bool :=
  match resort.snow_report with
  | none => false
  | some sr =>
    if sr.lifts = "" then false
    else
      match liftsMatch sr.lifts.data with
      | none => false
      | some (opn, tot) => liftsRatioAbove85 opn tot

/-- Attempt to match `/(\d+(?:\.\d+)?)/` anchored at the start of `cs`,
returning the matched decimal number (exact, as a rational — the claims
evaluated here never reach values where double rounding could differ). -/
def pistesTryHere (cs : List Char) : Option Rat :=
  let d1 := cs.takeWhile Char.isDigit
  if d1 = [] then none
  else
    match cs.dropWhile Char.isDigit with
    | '.' :: rest =>
      let d2 := rest.takeWhile Char.isDigit
      if d2 = [] then some (digitsToNat d1 : Rat)
      else some ((digitsToNat d1 : Rat) + (digitsToNat d2 : Rat) / (10 : Rat) ^ d2.length)
    | _ => some (digitsToNat d1 : Rat)

/-- Leftmost match of `/(\d+(?:\.\d+)?)/`, as performed by
`resort.snow_report.pistes_km.match(...)` in `getPistesKm`. -/
def pistesMatch : List Char → Option Rat
  | [] => none
  | c :: rest =>
    match pistesTryHere (c :: rest) with
    | some v => some v
    | none => pistesMatch rest

/-- Mirrors `getPistesKm` of `App.tsx`: a missing report or an empty
(falsy) piste string yields `0`, an unmatched string yields `0`,
otherwise the first decimal number in the string. -/
def getPistesKm (resort : Resort) : Rat :=
  match resort.snow_report with
  | none => 0
  | some sr =>
    if sr.pistes_km = "" then 0
    else
      match pistesMatch sr.pistes_km.data with
      | none => 0
      | some v => v

/-- One day-part of the `isGoodWeather` predicate of `App.tsx`. -/
def goodPeriod (p : WeatherPeriod) : Bool :=
  decide (p.cloud_cover_percent ≤ 75) && decide (p.snowfall_cm = 0) &&
    decide (p.precipitation_mm = 0)

/-- Mirrors `isGoodWeather` of `App.tsx`: every one of the three
day-parts must be good. -/
def isGoodWeather (resort : Resort) : Bool :=
  [resort.weather.morning, resort.weather.midday, resort.weather.afternoon].all goodPeriod

/-- The filter callback inside `filteredAndSortedResorts` of `App.tsx`. -/
def passesFilters (filters : Filters) (resort : Resort) : Bool :=
  if filters.goodWeather && !isGoodWeather resort then false
  else if filters.freshSnow && decide (resort.weather.snowfall_prev_24h_cm ≤ 0) then false
  else if filters.liftsOpen && !hasEnoughLiftsOpen resort then false
  else if filters.minPistes && decide (getPistesKm resort < 20) then false
  else true

/-- The sort key read by the comparator of `filteredAndSortedResorts`
(`distance_km`, `duration_driving_minutes` or
`duration_transit_minutes`, before the `?? Infinity` substitution). -/
def sortVal (t : SortType) (resort : Resort) : Option Rat :=
  match t with
  | .proximity => resort.distance_km
  | .driving => resort.duration_driving_minutes
  | .transit => resort.duration_transit_minutes

/-- Order on sort keys with `none` playing the role of the `Infinity`
substituted by `?? Infinity` in the comparator: a missing value is
greater than every present value and tied with another missing value. -/
def infLe (a b : Option Rat) : Bool :=
  match a, b with
  | _, none => true
  | none, some _ => false
  | some x, some y => decide (x ≤ y)

/-- The comparator relation of `filteredAndSortedResorts`: record `a`
may be placed no later than record `b`.  JavaScript `Array.prototype.sort`
is mandated to be stable, and the comparator `valA - valB` orders by
the selected key ascending, so the sort is the unique stable ascending
sort by this relation. -/
def sortR (t : SortType) (a b : Resort) : Prop :=
  infLe (sortVal t a) (sortVal t b) = true

instance (t : SortType) : DecidableRel (sortR t) :=
  fun _ _ => inferInstanceAs (Decidable (_ = true))

/-- Mirrors the `filteredAndSortedResorts` memo of `App.tsx`: filter
with the active toggles, then stable-sort ascending by the selected
key.  (In the source `filtered.sort` mutates only the fresh array
produced by `resorts.filter`, never `resorts` itself; the embedding is
accordingly a pure function of its three inputs.) -/
def filteredAndSortedResorts (resorts : List Resort) (sortType : SortType)
    (filters : Filters) : List Resort :=
  (resorts.filter (passesFilters filters)).insertionSort (sortR sortType)

/-! ### The App component state machine

`App.tsx` keeps its state in React `useState` hooks and mutates it from
the async procedure `loadResorts` and the event handlers.  The
embedding makes this explicit: `AppState` is the tuple of hook values,
`loadResortsIssue` is `loadResorts` from entry up to the point where
the resort-page request is handed to `fetchResorts` (including the
geocoding awaits and every early `return`), and the two `apply`
functions are the continuation after the awaited fetch settles.  The
`resorts` updater in the source is functional
(`setResorts(prev => ...)`), so the continuation reads the resorts
present when the response arrives, while `pageToFetch` and the request
coordinates are captured at issue time — both captured here by storing
them in the issued `Request`. -/

/-- Mirrors the `locationStatus` hook values. -/
inductive LocationStatus where
  | idle
  | locating
  | success
  | error
deriving DecidableEq

/-- The `useState` hooks of the `App` component (presentation-only
state such as the filter-modal visibility is omitted). -/
structure AppState where
  userLocation : Option ResortLocation
  locationInput : String
  isUsingGPS : Bool
  locationStatus : LocationStatus
  sortType : SortType
  filters : Filters
  date : String
  resorts : List Resort
  page : Nat
  hasMore : Bool
  loading : Bool
  searchPerformed : Bool
  totalResorts : Nat
  shouldScrollToResults : Bool
deriving DecidableEq

/-- The argument tuple of a `fetchResorts(lat, lng, date, pageToFetch)`
call, together with the `isNewSearch` flag of the `loadResorts`
invocation that issued it (the flag decides, on arrival, whether the
response replaces or extends `resorts`). -/
structure Request where
  lat : Rat
  lng : Rat
  date : String
  page : Nat
  isNewSearch : Bool
deriving DecidableEq

/-- Result of running the synchronous prefix of `loadResorts`: the
state after all `setX` calls made before the resort fetch settles, the
issued request if one was issued, and the `alert` text if the geocoding
failure branch fired. -/
structure IssueResult where
  state : AppState
  request : Option Request
  alert : Option String
deriving DecidableEq

/-- The `loadResorts` async procedure of `App.tsx`, from entry to the
`fetchResorts` call (or an early `return`).  The external geocoding
service (`geocodeLocation`) is abstracted as `oracle`; the source
awaits it and both awaits resolve within this prefix.  Every branch of
the source is reproduced, including the second (unreachable) fallback
geocoding block. -/
def loadResortsIssue (oracle : String → Option ResortLocation) (isNewSearch : Bool)
    (s0 : AppState) : IssueResult :=
  -- let targetLocation = userLocation; setLoading(true);
  let s1 : AppState := { s0 with loading := true }
  let step1 : IssueResult ⊕ (AppState × Option ResortLocation) :=
    -- if (!isUsingGPS && locationInput && locationInput !== "Current Location")
    if s1.isUsingGPS = false ∧ s1.locationInput ≠ "" ∧ s1.locationInput ≠ "Current Location" then
      match s1.userLocation with
      | none =>
        -- SAFEGUARD: If userLocation is null, force geocode.
        match oracle s1.locationInput with
        | some g => .inr ({ s1 with userLocation := some g }, some g)
        | none =>
          -- alert(...); setLoading(false); return;
          .inl { state := { s1 with loading := false }, request := none,
                 alert := some ("Could not find location: " ++ s1.locationInput) }
      | some t => .inr (s1, some t)
    else .inr (s1, s1.userLocation)
  match step1 with
  | .inl aborted => aborted
  | .inr (s2, target) =>
    match target with
    | some t =>
      -- const pageToFetch = isNewSearch ? 1 : page + 1; fetchResorts(...)
      { state := s2,
        request := some { lat := t.lat, lng := t.lng, date := s2.date,
                          page := if isNewSearch then 1 else s2.page + 1,
                          isNewSearch := isNewSearch },
        alert := none }
    | none =>
      -- if (!targetLocation): try one last time to geocode the input
      if s2.locationInput ≠ "" ∧ s2.locationInput ≠ "Current Location" ∧ s2.isUsingGPS = false then
        match oracle s2.locationInput with
        | some g =>
          { state := { s2 with userLocation := some g },
            request := some { lat := g.lat, lng := g.lng, date := s2.date,
                              page := if isNewSearch then 1 else s2.page + 1,
                              isNewSearch := isNewSearch },
            alert := none }
        | none => { state := { s2 with loading := false }, request := none, alert := none }
      else { state := { s2 with loading := false }, request := none, alert := none }

/-- Mirrors `handleSearch` of `App.tsx`:
`setShouldScrollToResults(true); loadResorts(true)`. -/
def handleSearch (oracle : String → Option ResortLocation) (s : AppState) : IssueResult :=
  loadResortsIssue oracle true { s with shouldScrollToResults := true }

/-- Mirrors `handleLoadMore` of `App.tsx`: `loadResorts(false)`, with
no guard of any kind before the call. -/
def handleLoadMore (oracle : String → Option ResortLocation) (s : AppState) : IssueResult :=
  loadResortsIssue oracle false s

/-- The continuation of `loadResorts` when the awaited `fetchResorts`
resolves: the `setResorts`/`setPage`/`setHasMore`/`setTotalResorts`/
`setSearchPerformed` calls followed by the `finally` block.  It is
applied to whatever state holds when the response arrives; nothing in
it compares the request against the current coordinate or date. -/
def applyFetchSuccess (s : AppState) (req : Request) (resp : ResortsResponse) : AppState :=
  { s with
    resorts := if req.isNewSearch then resp.resorts else s.resorts ++ resp.resorts,
    page := req.page,
    hasMore := resp.has_more,
    totalResorts := resp.total_resorts,
    searchPerformed := true,
    loading := false }

/-- The continuation of `loadResorts` when the awaited `fetchResorts`
rejects: the `catch` block only logs, and the `finally` block clears
the loading flag; no other state is touched and nothing is re-thrown. -/
def applyFetchFailure (s : AppState) : AppState :=
  { s with loading := false }

/-- A whole `loadResorts` run in which the issued fetch (if any)
settles with no interleaved events: `fetcher` decides whether the
`fetchResorts` promise resolves or rejects (`fetchResorts` itself
re-throws after logging, so a network error or non-2xx status reaches
the `catch` of `loadResorts`).  Returns the final state and the alert,
and is total: every failure is converted to state, none escapes. -/
def loadResortsRun (oracle : String → Option ResortLocation) (isNewSearch : Bool)
    (fetcher : Request → Except Unit ResortsResponse) (s : AppState) :
    AppState × Option String :=
  let i := loadResortsIssue oracle isNewSearch s
  match i.request with
  | none => (i.state, i.alert)
  | some req =>
    match fetcher req with
    | .ok resp => (applyFetchSuccess i.state req resp, i.alert)
    | .error _ => (applyFetchFailure i.state, i.alert)

/-- Folding a sequence of successful fetch completions (in arrival
order) over a state. -/
def applyFetchSuccesses (s : AppState) (arrivals : List (Request × ResortsResponse)) : AppState :=
  arrivals.foldl (fun st pr => applyFetchSuccess st pr.1 pr.2) s

/-! ### Concrete fixtures used by witnesses and counterexamples -/

/-- A neutral weather day-part for test records. -/
def testPeriod : WeatherPeriod :=
  { time := "morning", temperature_celsius := 0, precipitation_mm := 0,
    snowfall_cm := 0, cloud_cover_percent := 50, visibility_m := 10000 }

/-- A neutral weather block for test records. -/
def testWeather : WeatherData :=
  { snowfall_prev_24h_cm := 5, morning := testPeriod, midday := testPeriod,
    afternoon := testPeriod }

/-- A snow report with the two fields the filters read. -/
def mkReport (pistes lifts : String) : SnowReport :=
  { pistes_km := pistes, lifts := lifts, snow_depth_cm := "", updated_on := "" }

/-- A resort record with a chosen identifier, travel values and report. -/
def mkResort (rid : String) (dist : Option Rat) (report : Option SnowReport) : Resort :=
  { id := rid, name := rid, location := { lat := 46, lng := 8 }, elevation := "",
    snowreport_url := "", air_distance_km := 0, distance_km := dist,
    duration_driving_minutes := dist, duration_transit_minutes := dist,
    maps_directions_url_driving := none, maps_directions_url_transit := none,
    snow_report := report, weather := testWeather, image_url := "" }

/-- All filter toggles off. -/
def filtersOff : Filters :=
  { goodWeather := false, freshSnow := false, liftsOpen := false, minPistes := false }

/-- Only the lifts-open toggle on. -/
def filtersLiftsOnly : Filters :=
  { goodWeather := false, freshSnow := false, liftsOpen := true, minPistes := false }

/-- Only the min-pistes toggle on. -/
def filtersPistesOnly : Filters :=
  { goodWeather := false, freshSnow := false, liftsOpen := false, minPistes := true }

/-- A geocoding oracle with no match for any query. -/
def noGeocode : String → Option ResortLocation := fun _ => none

/-- A quiescent app state with a resolved manual location, as left by a
typed search for which the user picked an autocomplete suggestion. -/
def baseAppState : AppState :=
  { userLocation := some { lat := 46, lng := 8 }, locationInput := "Bern",
    isUsingGPS := false, locationStatus := .idle, sortType := .proximity,
    filters := filtersOff, date := "2025-01-10", resorts := [], page := 1,
    hasMore := false, loading := false, searchPerformed := false,
    totalResorts := 0, shouldScrollToResults := false }

/-- A record returned by the first (stale) session in the C1 trace. -/
def resortStale : Resort := mkResort "stale-session-resort" (some 12) none

/-- A record returned by the second (current) session in the C1 trace. -/
def resortFresh : Resort := mkResort "fresh-session-resort" (some 34) none

/-- The state after the first search was issued and the user then
selected a new location and date while that fetch was in flight. -/
def c1StateSecond : AppState :=
  { (handleSearch noGeocode baseAppState).state with
    userLocation := some { lat := 47, lng := 9 }, date := "2025-01-11" }

/-- The request issued by the first search (session one). -/
def c1ReqStale : Request :=
  { lat := 46, lng := 8, date := "2025-01-10", page := 1, isNewSearch := true }

/-- The request issued by the second search (session two). -/
def c1ReqFresh : Request :=
  { lat := 47, lng := 9, date := "2025-01-11", page := 1, isNewSearch := true }

/-- The response of session one (arriving late). -/
def c1RespStale : ResortsResponse :=
  { page := 1, page_size := 15, total_resorts := 1, has_more := false,
    resorts := [resortStale] }

/-- The response of session two (arriving first). -/
def c1RespFresh : ResortsResponse :=
  { page := 1, page_size := 15, total_resorts := 1, has_more := false,
    resorts := [resortFresh] }

/-- Final state of the C1 trace: both searches issued, session two's
response applied, then session one's stale response applied. -/
def c1Final : AppState :=
  applyFetchSuccess
    (applyFetchSuccess (handleSearch noGeocode c1StateSecond).state c1ReqFresh c1RespFresh)
    c1ReqStale c1RespStale

/-- A state with a page-4 session and a fetch currently in flight. -/
def c2StateLoading : AppState :=
  { baseAppState with
    resorts := [mkResort "r1" (some 5) none], page := 4,
    hasMore := true, loading := true, searchPerformed := true, totalResorts := 90 }

/-- A state holding three pages of an old session, from which a new
search is started. -/
def c5StateOld : AppState :=
  { baseAppState with
    resorts := [mkResort "old" (some 7) none], page := 3,
    hasMore := true, searchPerformed := true, totalResorts := 40 }

/-- The page-1 request of the new search started from `c5StateOld`. -/
def c5ReqNew : Request :=
  { lat := 46, lng := 8, date := "2025-01-10", page := 1, isNewSearch := true }

/-- The page-2 load-more request of the new search in the C5 scenario. -/
def c5ReqMore : Request :=
  { lat := 46, lng := 8, date := "2025-01-10", page := 2, isNewSearch := false }

/-- The first-page response of the new search in the C5 scenario. -/
def c5RespNew : ResortsResponse :=
  { page := 1, page_size := 15, total_resorts := 2, has_more := true,
    resorts := [mkResort "n1" (some 3) none, mkResort "n2" (some 4) none] }

/-- A state with only typed text: no resolved coordinate yet. -/
def c8StateUnresolved : AppState :=
  { baseAppState with userLocation := none, locationInput := "Nowhereville123xyz" }

/-- A fetch transport in which every request fails (network error or
non-2xx status). -/
def failingFetcher : Request → Except Unit ResortsResponse := fun _ => .error ()

/-! ### Order lemmas for the sort comparator -/

theorem infLe_total (a b : Option Rat) : infLe a b = true ∨ infLe b a = true := by
  cases a <;> cases b <;> simp [infLe]
  exact le_total _ _

theorem infLe_trans {a b c : Option Rat} (h1 : infLe a b = true) (h2 : infLe b c = true) :
    infLe a c = true := by
  cases a <;> cases b <;> cases c <;> simp_all [infLe]
  exact le_trans h1 h2

theorem infLe_refl (a : Option Rat) : infLe a a = true := by
  cases a <;> simp [infLe]

/-- Integer characterization of the JavaScript ratio test
`parseInt(open) / parseInt(total) > 0.85` (needed because rational
division does not evaluate by kernel reduction). -/
theorem liftsRatioAbove85_iff (opn tot : Nat) :
    liftsRatioAbove85 opn tot = true ↔
      (tot = 0 ∧ 0 < opn) ∨ (0 < tot ∧ 17 * tot < 20 * opn) := by
  unfold liftsRatioAbove85
  by_cases h : tot = 0
  · simp [h]
  · have htQ : (0 : Rat) < (tot : Rat) := by
      exact_mod_cast Nat.pos_of_ne_zero h
    rw [if_neg h, decide_eq_true_iff, div_lt_div_iff₀ (by norm_num) htQ]
    constructor
    · intro hlt
      refine Or.inr ⟨Nat.pos_of_ne_zero h, ?_⟩
      have : (17 * tot : Rat) < (20 * opn : Rat) := by linarith
      exact_mod_cast this
    · rintro (⟨h0, _⟩ | ⟨_, hlt⟩)
      · exact absurd h0 h
      · have : (17 * tot : Rat) < (20 * opn : Rat) := by exact_mod_cast hlt
        push_cast at this
        linarith

/-- C3: the visible list is recomputed, never mutating
AccumulatedResults: the filtered stage is an order-preserving sublist
of `resorts` (which the pure pipeline leaves untouched by
construction), the sorted output is a permutation of that filtered
stage (so a subset of AccumulatedResults), and recomputation from the
same three inputs is deterministic. -/
theorem visibleList_pure_orderPreserving (rs : List Resort) (t : SortType) (f : Filters) :
    (rs.filter (passesFilters f)).Sublist rs ∧
    (filteredAndSortedResorts rs t f).Perm (rs.filter (passesFilters f)) ∧
    filteredAndSortedResorts rs t f = filteredAndSortedResorts rs t f :=
  ⟨List.filter_sublist rs, List.perm_insertionSort _ _, rfl⟩

/-- C4: the visible list is sorted ascending by the selected key with a
missing key treated as positive infinity, the sort is stable (records
with equal keys keep their relative order from the filtered stage,
hence from AccumulatedResults), filtering happens strictly before
sorting, and records with a missing key are pushed to the end. -/
theorem visibleList_sorted_stable (rs : List Resort) (t : SortType) (f : Filters) :
    (filteredAndSortedResorts rs t f).Sorted (sortR t) ∧
    (∀ a b : Resort, List.Sublist [a, b] (rs.filter (passesFilters f)) →
      sortVal t a = sortVal t b → List.Sublist [a, b] (filteredAndSortedResorts rs t f)) ∧
    (∀ a b : Resort, List.Sublist [a, b] (filteredAndSortedResorts rs t f) →
      sortVal t a = none → sortVal t b = none) := by
  haveI htotal : IsTotal Resort (sortR t) := ⟨fun a b => infLe_total _ _⟩
  haveI htrans : IsTrans Resort (sortR t) := ⟨fun _ _ _ h1 h2 => infLe_trans h1 h2⟩
  have hsorted : (filteredAndSortedResorts rs t f).Sorted (sortR t) :=
    List.sorted_insertionSort (sortR t) _
  refine ⟨hsorted, ?_, ?_⟩
  · intro a b hsub hkey
    exact List.pair_sublist_insertionSort
      (show sortR t a b by unfold sortR; rw [hkey]; exact infLe_refl _) hsub
  · intro a b hsub ha
    have hrel : sortR t a b := List.pairwise_pair.mp (hsorted.sublist hsub)
    unfold sortR at hrel
    rw [ha] at hrel
    cases hb : sortVal t b with
    | none => rfl
    | some q => rw [hb] at hrel; simp [infLe] at hrel

/-- Witness for C4 at a concrete input: two records with the same
driving distance stay in arrival order in the sorted visible list. -/
theorem visibleList_sorted_stable_witness :
    (filteredAndSortedResorts [mkResort "b" (some 10) none, mkResort "a" (some 10) none]
      SortType.proximity filtersOff).Sorted (sortR SortType.proximity) ∧
    List.Sublist [mkResort "b" (some 10) none, mkResort "a" (some 10) none]
      (filteredAndSortedResorts [mkResort "b" (some 10) none, mkResort "a" (some 10) none]
        SortType.proximity filtersOff) :=
  ⟨(visibleList_sorted_stable _ _ _).1,
   (visibleList_sorted_stable [mkResort "b" (some 10) none, mkResort "a" (some 10) none]
      SortType.proximity filtersOff).2.1 _ _ (by decide) (by decide)⟩

/-! ### Characterizations of the issue phase -/

/-- When a resolved coordinate is already present, `loadResorts` never
geocodes: it sets the loading flag and issues the fetch for page 1 (new
search) or page+1 (load more), with no other state change. -/
theorem loadResortsIssue_of_userLocation (oracle : String → Option ResortLocation)
    (b : Bool) (s : AppState) (l : ResortLocation) (h : s.userLocation = some l) :
    loadResortsIssue oracle b s =
      { state := { s with loading := true },
        request := some { lat := l.lat, lng := l.lng, date := s.date,
                          page := if b then 1 else s.page + 1, isNewSearch := b },
        alert := none } := by
  unfold loadResortsIssue
  dsimp only
  rw [h]
  split_ifs <;> rfl

/-- The issue phase of `loadResorts` never touches the result state:
accumulated resorts, page counter, has-more, search-performed and
total-count are all left as they were (only the loading flag and,
after a successful geocode, the stored coordinate change). -/
theorem loadResortsIssue_state_fields (oracle : String → Option ResortLocation)
    (b : Bool) (s : AppState) :
    (loadResortsIssue oracle b s).state.resorts = s.resorts ∧
    (loadResortsIssue oracle b s).state.page = s.page ∧
    (loadResortsIssue oracle b s).state.hasMore = s.hasMore ∧
    (loadResortsIssue oracle b s).state.searchPerformed = s.searchPerformed ∧
    (loadResortsIssue oracle b s).state.totalResorts = s.totalResorts := by
  unfold loadResortsIssue
  dsimp only
  by_cases h1 : s.isUsingGPS = false ∧ ¬s.locationInput = "" ∧ ¬s.locationInput = "Current Location"
  · rw [if_pos h1]
    cases hu : s.userLocation with
    | some t => simp
    | none =>
      cases ho : oracle s.locationInput with
      | some g => simp
      | none => simp
  · rw [if_neg h1]
    cases hu : s.userLocation with
    | some t => simp
    | none =>
      dsimp only
      by_cases h2 : ¬s.locationInput = "" ∧ ¬s.locationInput = "Current Location" ∧ s.isUsingGPS = false
      · rw [if_pos h2]
        cases ho : oracle s.locationInput with
        | some g => simp
        | none => simp
      · rw [if_neg h2]
        simp

/-- Folding successful load-more completions appends each response's
records in arrival order. -/
theorem applyFetchSuccesses_resorts (s : AppState)
    (arrivals : List (Request × ResortsResponse))
    (h : ∀ pr ∈ arrivals, (pr.1 : Request).isNewSearch = false) :
    (applyFetchSuccesses s arrivals).resorts =
      s.resorts ++ (arrivals.map (fun pr => pr.2.resorts)).flatten := by
  induction arrivals generalizing s with
  | nil => simp [applyFetchSuccesses]
  | cons hd tl ih =>
    have hhd : hd.1.isNewSearch = false := h hd (List.mem_cons_self _ _)
    have htl : ∀ pr ∈ tl, (pr.1 : Request).isNewSearch = false :=
      fun pr hm => h pr (List.mem_cons_of_mem _ hm)
    have hstep : applyFetchSuccesses s (hd :: tl) =
        applyFetchSuccesses (applyFetchSuccess s hd.1 hd.2) tl := rfl
    rw [hstep, ih _ htl]
    simp [applyFetchSuccess, hhd]

/-- C1 counterexample: a concrete trace in which the fetch of session
one (coordinate 46/8, date 2025-01-10) is still in flight when session
two (coordinate 47/9, date 2025-01-11) is started; session two's
response is applied, then the stale response arrives and is applied as
well — AccumulatedResults ends up holding the stale session's records,
not (only) the new session's. -/
theorem staleResponse_overwrites_cex :
    (handleSearch noGeocode baseAppState).request = some c1ReqStale ∧
    (handleSearch noGeocode c1StateSecond).request = some c1ReqFresh ∧
    c1Final.resorts = [resortStale] ∧
    c1Final.resorts ≠ c1RespFresh.resorts := by decide

/-- C1 amended: no fetch is tagged with its session and no response is
discarded — a response arriving after a new search was issued is still
applied: a stale new-search response replaces AccumulatedResults with
its own records, and a stale load-more response appends its records to
the new session's. -/
theorem staleResponse_applied (s : AppState) (req1 req2 : Request)
    (resp1 resp2 : ResortsResponse) (hnew1 : req1.isNewSearch = true)
    (hnew2 : req2.isNewSearch = true) :
    (applyFetchSuccess (applyFetchSuccess s req2 resp2) req1 resp1).resorts =
      resp1.resorts ∧
    (applyFetchSuccess (applyFetchSuccess s req2 resp2)
        { req1 with isNewSearch := false } resp1).resorts =
      resp2.resorts ++ resp1.resorts := by
  constructor
  · simp [applyFetchSuccess, hnew1]
  · simp [applyFetchSuccess, hnew2]

/-- Witness for the amended C1 at concrete inputs. -/
theorem staleResponse_applied_witness :
    (applyFetchSuccess (applyFetchSuccess baseAppState c1ReqFresh c1RespFresh)
        c1ReqStale c1RespStale).resorts = c1RespStale.resorts ∧
    (applyFetchSuccess (applyFetchSuccess baseAppState c1ReqFresh c1RespFresh)
        { c1ReqStale with isNewSearch := false } c1RespStale).resorts =
      c1RespFresh.resorts ++ c1RespStale.resorts :=
  staleResponse_applied baseAppState c1ReqStale c1ReqFresh c1RespStale c1RespFresh
    (by decide) (by decide)

/-- C2: evaluation of the code at the failing input — with a fetch in
flight (`loading = true`) an invocation of `handleLoadMore` is not a
no-op: it issues a second fetch, for the same next page the in-flight
fetch is already loading. -/
theorem handleLoadMore_whileLoading_issues_fetch :
    c2StateLoading.loading = true ∧
    (handleLoadMore noGeocode c2StateLoading).request =
      some { lat := 46, lng := 8, date := "2025-01-10", page := 5,
             isNewSearch := false } ∧
    (handleLoadMore noGeocode c2StateLoading).state.loading = true := by decide

/-- C5 counterexample: starting a new search from a state holding an
old session does not clear AccumulatedResults, reset the page counter
or reset has-more while the first page's fetch is in flight. -/
theorem newSearch_noEagerReset_cex :
    (handleSearch noGeocode c5StateOld).state.resorts ≠ [] ∧
    (handleSearch noGeocode c5StateOld).state.page ≠ 1 ∧
    (handleSearch noGeocode c5StateOld).state.hasMore = true := by decide

/-- C5 amended: issuing a new search leaves AccumulatedResults, page
and has-more untouched (only the loading flag is set) and fetches page
1; when the first page's response arrives it replaces
AccumulatedResults with exactly that page's records, and N successful
same-session completions returning R1..RN records leave
AccumulatedResults = R1 ++ ... ++ RN with length sum(R1..RN). -/
theorem newSearch_replace_and_accumulate (oracle : String → Option ResortLocation)
    (s : AppState) (l : ResortLocation) (hloc : s.userLocation = some l)
    (req1 : Request) (resp1 : ResortsResponse)
    (arrivals : List (Request × ResortsResponse))
    (hnew : req1.isNewSearch = true)
    (hmore : ∀ pr ∈ arrivals, (pr.1 : Request).isNewSearch = false) :
    (handleSearch oracle s).state.resorts = s.resorts ∧
    (handleSearch oracle s).state.page = s.page ∧
    (handleSearch oracle s).state.hasMore = s.hasMore ∧
    (handleSearch oracle s).state.loading = true ∧
    (handleSearch oracle s).request =
      some { lat := l.lat, lng := l.lng, date := s.date, page := 1,
             isNewSearch := true } ∧
    (applyFetchSuccess (handleSearch oracle s).state req1 resp1).resorts =
      resp1.resorts ∧
    (applyFetchSuccesses (applyFetchSuccess (handleSearch oracle s).state req1 resp1)
        arrivals).resorts =
      resp1.resorts ++ (arrivals.map (fun pr => pr.2.resorts)).flatten ∧
    (applyFetchSuccesses (applyFetchSuccess (handleSearch oracle s).state req1 resp1)
        arrivals).resorts.length =
      resp1.resorts.length + (arrivals.map (fun pr => pr.2.resorts.length)).sum := by
  have hlem := loadResortsIssue_of_userLocation oracle true
    { s with shouldScrollToResults := true } l hloc
  unfold handleSearch
  rw [hlem]
  have hacc := applyFetchSuccesses_resorts
    (applyFetchSuccess ({ { s with shouldScrollToResults := true } with
      loading := true } : AppState) req1 resp1) arrivals hmore
  refine ⟨rfl, rfl, rfl, rfl, rfl, by simp [applyFetchSuccess, hnew], ?_, ?_⟩
  · rw [hacc]
    simp [applyFetchSuccess, hnew]
  · rw [hacc]
    simp [applyFetchSuccess, hnew, Function.comp_def]

/-- Witness for the amended C5 at concrete inputs: a new search from a
three-page-old session, its page-1 response, and one load-more
completion. -/
theorem newSearch_replace_and_accumulate_witness :
    (handleSearch noGeocode c5StateOld).state.resorts = c5StateOld.resorts ∧
    (applyFetchSuccesses
        (applyFetchSuccess (handleSearch noGeocode c5StateOld).state c5ReqNew c5RespNew)
        [(c5ReqMore, c5RespNew)]).resorts =
      c5RespNew.resorts ++
        ([(c5ReqMore, c5RespNew)].map (fun pr => pr.2.resorts)).flatten := by
  have h := newSearch_replace_and_accumulate noGeocode c5StateOld
    { lat := 46, lng := 8 } (by decide) c5ReqNew c5RespNew
    [(c5ReqMore, c5RespNew)] (by decide) (by decide)
  exact ⟨h.1, h.2.2.2.2.2.2.1⟩

/-- C8: when the typed location must be geocoded (no GPS, non-empty
text that is not the GPS placeholder, no previously resolved
coordinate) and the geocoding service returns no match, the search is
aborted: no resort fetch is issued, an alert naming the unresolved
query is raised, AccumulatedResults is untouched, and the loading
indicator ends cleared. -/
theorem geocodeFailure_aborts (oracle : String → Option ResortLocation) (b : Bool)
    (s : AppState) (hgps : s.isUsingGPS = false) (hinput : s.locationInput ≠ "")
    (hcl : s.locationInput ≠ "Current Location") (hloc : s.userLocation = none)
    (horacle : oracle s.locationInput = none) :
    (loadResortsIssue oracle b s).request = none ∧
    (loadResortsIssue oracle b s).alert =
      some ("Could not find location: " ++ s.locationInput) ∧
    (loadResortsIssue oracle b s).state.resorts = s.resorts ∧
    (loadResortsIssue oracle b s).state.loading = false := by
  unfold loadResortsIssue
  dsimp only
  rw [if_pos ⟨hgps, hinput, hcl⟩, hloc, horacle]
  exact ⟨rfl, rfl, rfl, rfl⟩

/-- Witness for C8: the query of scenario D aborts with the alert and
leaves the (empty) AccumulatedResults in place. -/
theorem geocodeFailure_aborts_witness :
    (loadResortsIssue noGeocode true c8StateUnresolved).request = none ∧
    (loadResortsIssue noGeocode true c8StateUnresolved).alert =
      some ("Could not find location: " ++ c8StateUnresolved.locationInput) ∧
    (loadResortsIssue noGeocode true c8StateUnresolved).state.resorts =
      c8StateUnresolved.resorts ∧
    (loadResortsIssue noGeocode true c8StateUnresolved).state.loading = false :=
  geocodeFailure_aborts noGeocode true c8StateUnresolved (by decide) (by decide)
    (by decide) (by decide) (by decide)

/-- C9: when the issued resort fetch fails (network error or non-2xx,
which `fetchResorts` re-throws), the `catch` and `finally` of
`loadResorts` convert the failure to state: the loading indicator is
cleared, AccumulatedResults and all other result state are exactly as
before the fetch, and the run is total — no rejection escapes. -/
theorem fetchFailure_preservesState (oracle : String → Option ResortLocation)
    (b : Bool) (fetcher : Request → Except Unit ResortsResponse) (s : AppState)
    (req : Request) (hreq : (loadResortsIssue oracle b s).request = some req)
    (hfail : fetcher req = .error ()) :
    (loadResortsRun oracle b fetcher s).1.resorts = s.resorts ∧
    (loadResortsRun oracle b fetcher s).1.page = s.page ∧
    (loadResortsRun oracle b fetcher s).1.hasMore = s.hasMore ∧
    (loadResortsRun oracle b fetcher s).1.searchPerformed = s.searchPerformed ∧
    (loadResortsRun oracle b fetcher s).1.totalResorts = s.totalResorts ∧
    (loadResortsRun oracle b fetcher s).1.loading = false := by
  have hfields := loadResortsIssue_state_fields oracle b s
  unfold loadResortsRun
  dsimp only
  rw [hreq]
  dsimp only
  rw [hfail]
  unfold applyFetchFailure
  exact ⟨hfields.1, hfields.2.1, hfields.2.2.1, hfields.2.2.2.1, hfields.2.2.2.2, rfl⟩

/-- Witness for C9: a failing transport on a concrete search leaves the
state intact with the loading indicator cleared. -/
theorem fetchFailure_preservesState_witness :
    (loadResortsRun noGeocode true failingFetcher baseAppState).1.resorts =
      baseAppState.resorts ∧
    (loadResortsRun noGeocode true failingFetcher baseAppState).1.page =
      baseAppState.page ∧
    (loadResortsRun noGeocode true failingFetcher baseAppState).1.hasMore =
      baseAppState.hasMore ∧
    (loadResortsRun noGeocode true failingFetcher baseAppState).1.searchPerformed =
      baseAppState.searchPerformed ∧
    (loadResortsRun noGeocode true failingFetcher baseAppState).1.totalResorts =
      baseAppState.totalResorts ∧
    (loadResortsRun noGeocode true failingFetcher baseAppState).1.loading = false :=
  fetchFailure_preservesState noGeocode true failingFetcher baseAppState
    { lat := 46, lng := 8, date := "2025-01-10", page := 1, isNewSearch := true }
    (by decide) rfl

/-! ### Lemmas about the regex scanners -/

theorem takeWhile_all_cons_neg (p : Char → Bool) (d : List Char) (x : Char)
    (xs : List Char) (hd : ∀ c ∈ d, p c = true) (hx : p x = false) :
    (d ++ x :: xs).takeWhile p = d := by
  induction d with
  | nil => simp [List.takeWhile_cons, hx]
  | cons a t ih =>
    have ha : p a = true := hd a (List.mem_cons_self a t)
    have ht : ∀ c ∈ t, p c = true := fun c hc => hd c (List.mem_cons_of_mem a hc)
    simp [List.takeWhile_cons, ha, ih ht]

theorem dropWhile_all_cons_neg (p : Char → Bool) (d : List Char) (x : Char)
    (xs : List Char) (hd : ∀ c ∈ d, p c = true) (hx : p x = false) :
    (d ++ x :: xs).dropWhile p = x :: xs := by
  induction d with
  | nil => simp [List.dropWhile_cons, hx]
  | cons a t ih =>
    have ha : p a = true := hd a (List.mem_cons_self a t)
    have ht : ∀ c ∈ t, p c = true := fun c hc => hd c (List.mem_cons_of_mem a hc)
    simp [List.dropWhile_cons, ha, ih ht]

theorem isDigit_not_jsSpace {c : Char} (h : c.isDigit = true) : jsSpaceChar c = false := by
  unfold jsSpaceChar
  simp only [Bool.or_eq_false_iff, beq_eq_false_iff_ne, ne_eq]
  refine ⟨⟨⟨⟨⟨?_, ?_⟩, ?_⟩, ?_⟩, ?_⟩, ?_⟩ <;> (rintro rfl; exact absurd h (by decide))

theorem liftsMatch_cons (c : Char) (rest : List Char) :
    liftsMatch (c :: rest) =
      match liftsTryHere (c :: rest) with
      | some v => some v
      | none => liftsMatch rest := rfl

theorem liftsMatch_isSome_of_tryHere {c : Char} {rest : List Char} {v : Nat × Nat}
    (h : liftsTryHere (c :: rest) = some v) : (liftsMatch (c :: rest)).isSome = true := by
  rw [liftsMatch_cons, h]
  rfl

theorem liftsMatch_isSome_of_tail {c : Char} {rest : List Char}
    (h : (liftsMatch rest).isSome = true) : (liftsMatch (c :: rest)).isSome = true := by
  rw [liftsMatch_cons]
  cases ht : liftsTryHere (c :: rest) with
  | some v => rfl
  | none => exact h

/-- C6: with the lifts-open filter on, a record passes if and only if
its snow report is present, its lift string has a `digits / digits`
match (optionally spaced), and the open/total ratio test (under the
JavaScript arithmetic of the source) exceeds 0.85; scenario C holds:
"9 / 10" passes, "8/10" fails, a missing report fails. -/
theorem hasEnoughLiftsOpen_spec :
    (∀ resort : Resort, hasEnoughLiftsOpen resort = true ↔
      ∃ sr, resort.snow_report = some sr ∧
        ∃ opn tot, liftsMatch sr.lifts.data = some (opn, tot) ∧
          liftsRatioAbove85 opn tot = true) ∧
    hasEnoughLiftsOpen (mkResort "c6pass" none (some (mkReport "" "9 / 10"))) = true ∧
    hasEnoughLiftsOpen (mkResort "c6fail" none (some (mkReport "" "8/10"))) = false ∧
    hasEnoughLiftsOpen (mkResort "c6none" none none) = false := by
  refine ⟨?_, ?_, ?_, rfl⟩
  · intro resort
    cases hsr : resort.snow_report with
    | none => simp [hasEnoughLiftsOpen, hsr]
    | some sr =>
      by_cases hl : sr.lifts = ""
      · simp [hasEnoughLiftsOpen, hsr, hl,
          show liftsMatch ("" : String).data = none from rfl]
      · cases hm : liftsMatch sr.lifts.data with
        | none => simp [hasEnoughLiftsOpen, hsr, hl, hm]
        | some pr =>
          obtain ⟨opn, tot⟩ := pr
          have hlhs : hasEnoughLiftsOpen resort = liftsRatioAbove85 opn tot := by
            unfold hasEnoughLiftsOpen
            rw [hsr]
            dsimp only
            rw [if_neg hl, hm]
          rw [hlhs]
          constructor
          · intro h
            exact ⟨sr, rfl, opn, tot, hm, h⟩
          · rintro ⟨sr2, hsr2, o, t, hm2, h⟩
            injection hsr2 with he
            subst he
            rw [hm] at hm2
            simp only [Option.some.injEq, Prod.mk.injEq] at hm2
            obtain ⟨rfl, rfl⟩ := hm2
            exact h
  · rw [show hasEnoughLiftsOpen (mkResort "c6pass" none (some (mkReport "" "9 / 10"))) =
        liftsRatioAbove85 9 10 from rfl]
    exact (liftsRatioAbove85_iff 9 10).mpr (Or.inr (by decide))
  · rw [show hasEnoughLiftsOpen (mkResort "c6fail" none (some (mkReport "" "8/10"))) =
        liftsRatioAbove85 8 10 from rfl]
    cases hb : liftsRatioAbove85 8 10 with
    | false => rfl
    | true =>
      exfalso
      rcases (liftsRatioAbove85_iff 8 10).mp hb with ⟨h0, _⟩ | ⟨_, h1⟩ <;> omega

/-- Witness for C6: the passing scenario record indeed exhibits a
matched lift string whose ratio test succeeds. -/
theorem hasEnoughLiftsOpen_spec_witness :
    ∃ sr, (mkResort "c6pass" none (some (mkReport "" "9 / 10"))).snow_report = some sr ∧
      ∃ opn tot, liftsMatch sr.lifts.data = some (opn, tot) ∧
        liftsRatioAbove85 opn tot = true :=
  (hasEnoughLiftsOpen_spec.1 _).mp hasEnoughLiftsOpen_spec.2.1

/-- C7: with the min-pistes filter on, a record passes if and only if
the first decimal number of its piste string is at least 20; a missing
report, an empty string or an unmatched string all yield 0 and fail;
scenario B holds: "18 km" is excluded, "45km" included, "" excluded. -/
theorem minPistes_spec :
    (∀ resort : Resort, passesFilters filtersPistesOnly resort = true ↔
      (20 : Rat) ≤ getPistesKm resort) ∧
    (∀ resort : Resort, resort.snow_report = none → getPistesKm resort = 0) ∧
    (∀ (resort : Resort) (sr : SnowReport), resort.snow_report = some sr →
      pistesMatch sr.pistes_km.data = none → getPistesKm resort = 0) ∧
    passesFilters filtersPistesOnly (mkResort "c7a" none (some (mkReport "18 km" ""))) = false ∧
    passesFilters filtersPistesOnly (mkResort "c7b" none (some (mkReport "45km" ""))) = true ∧
    passesFilters filtersPistesOnly (mkResort "c7c" none (some (mkReport "" ""))) = false := by
  refine ⟨?_, ?_, ?_, by decide, by decide, by decide⟩
  · intro resort
    simp [passesFilters, filtersPistesOnly, not_lt]
  · intro resort h
    simp [getPistesKm, h]
  · intro resort sr h hm
    by_cases he : sr.pistes_km = ""
    · simp [getPistesKm, h, he]
    · simp [getPistesKm, h, he, hm]

/-- Witness for C7 at concrete inputs. -/
theorem minPistes_spec_witness :
    getPistesKm (mkResort "c7w" none none) = 0 ∧
    passesFilters filtersPistesOnly (mkResort "c7b" none (some (mkReport "45km" ""))) = true :=
  ⟨minPistes_spec.2.1 _ rfl, minPistes_spec.2.2.2.2.1⟩

/-- C10: the lifts regex is unanchored — any `digits / digits`
occurrence anywhere in the string produces a match (so "12/14 open" is
accepted), and a parsed total of 0 with a positive numerator passes the
filter (JavaScript division by zero gives Infinity > 0.85) rather than
failing as unparsable. -/
theorem liftsMatch_unanchored_divZero :
    (∀ pre d1 d2 post : List Char, d1 ≠ [] → d2 ≠ [] →
      (∀ c ∈ d1, c.isDigit = true) → (∀ c ∈ d2, c.isDigit = true) →
      (liftsMatch (pre ++ d1 ++ '/' :: d2 ++ post)).isSome = true) ∧
    hasEnoughLiftsOpen (mkResort "c10a" none (some (mkReport "" "12/14 open"))) = true ∧
    liftsMatch "3/0".data = some (3, 0) ∧
    hasEnoughLiftsOpen (mkResort "c10b" none (some (mkReport "" "3/0"))) = true := by
  refine ⟨?_, ?_, by decide, ?_⟩
  · intro pre d1 d2 post h1 h2 hd1 hd2
    induction pre with
    | nil =>
      obtain ⟨a, d1t, rfl⟩ : ∃ a t, d1 = a :: t := by
        cases d1 with
        | nil => exact absurd rfl h1
        | cons a t => exact ⟨a, t, rfl⟩
      obtain ⟨b, d2t, rfl⟩ : ∃ b t, d2 = b :: t := by
        cases d2 with
        | nil => exact absurd rfl h2
        | cons b t => exact ⟨b, t, rfl⟩
      have hb : Char.isDigit b = true := hd2 b (List.mem_cons_self b d2t)
      have hsp : jsSpaceChar b = false := isDigit_not_jsSpace hb
      have htw : (a :: (d1t ++ '/' :: b :: (d2t ++ post))).takeWhile Char.isDigit =
          a :: d1t := by
        have h0 := takeWhile_all_cons_neg Char.isDigit (a :: d1t) '/'
          (b :: (d2t ++ post)) hd1 (by decide)
        simpa [List.cons_append] using h0
      have hdw : (a :: (d1t ++ '/' :: b :: (d2t ++ post))).dropWhile Char.isDigit =
          '/' :: b :: (d2t ++ post) := by
        have h0 := dropWhile_all_cons_neg Char.isDigit (a :: d1t) '/'
          (b :: (d2t ++ post)) hd1 (by decide)
        simpa [List.cons_append] using h0
      have htry : (liftsTryHere (a :: (d1t ++ '/' :: b :: (d2t ++ post)))).isSome = true := by
        unfold liftsTryHere
        dsimp only
        rw [htw, hdw]
        simp [List.dropWhile_cons, List.takeWhile_cons,
          show jsSpaceChar '/' = false from by decide, hsp, hb]
      simp only [List.nil_append, List.append_assoc, List.cons_append]
      rcases Option.isSome_iff_exists.mp htry with ⟨v, hv⟩
      exact liftsMatch_isSome_of_tryHere hv
    | cons c pret ih =>
      simp only [List.cons_append, List.append_assoc] at ih ⊢
      exact liftsMatch_isSome_of_tail ih
  · rw [show hasEnoughLiftsOpen (mkResort "c10a" none (some (mkReport "" "12/14 open"))) =
        liftsRatioAbove85 12 14 from rfl]
    exact (liftsRatioAbove85_iff 12 14).mpr (Or.inr (by decide))
  · rw [show hasEnoughLiftsOpen (mkResort "c10b" none (some (mkReport "" "3/0"))) =
        liftsRatioAbove85 3 0 from rfl]
    exact (liftsRatioAbove85_iff 3 0).mpr (Or.inl ⟨rfl, by decide⟩)

/-- Witness for C10: a concrete string with surrounding text matches. -/
theorem liftsMatch_unanchored_divZero_witness :
    (liftsMatch (['x'] ++ ['1', '2'] ++ '/' :: ['1', '4'] ++ [' '])).isSome = true ∧
    hasEnoughLiftsOpen (mkResort "c10a" none (some (mkReport "" "12/14 open"))) = true :=
  ⟨liftsMatch_unanchored_divZero.1 ['x'] ['1', '2'] ['1', '4'] [' ']
      (by decide) (by decide) (by decide) (by decide),
   liftsMatch_unanchored_divZero.2.1⟩
